import Mathlib

/-!
Verification of the geospatial core of the `mbtiles-test` repository.

The development shallowly embeds the Python sources (`static_maps/geo.py`,
`static_maps/tiles.py`, `mbtiles/mbtiles.py`) into Lean: Python floats are
modelled as exact rationals, Python exceptions as `Except` values with a
structured error type, and the retrying HTTP downloader as a pure function
over a stream of mocked responses.
-/

namespace Mbtiles


/-- Structured model of the Python exceptions raised by the code base. -/
inductive DlReason where
  | badStatus (code : Nat)
  | badContentType (ct fmtp : String)
  | retriesExhausted
deriving DecidableEq, Repr

/-- Structured model of the Python exceptions raised by the code base. -/
inductive PyErr where
  | valueError (msg : String)
  | typeError (msg : String)
  | attributeError (attr : String)
  | assertionError (msg : String)
  | unboundLocalError (name : String)
  | downloadError (r : DlReason)
  | notImplementedError
deriving DecidableEq, Repr

/-! ## Numeric model: `geo.py` clamping and rounding

`geo.clamp` (geo.py:20-23): `min(max(a, -v), v)`.  The `assert v >= 0` always
holds at the call sites (the extents are positive constants), so the model is
total. -/

/-- `geo.clamp`: clamps `a` to `[-v, v]`. -/
def clamp (a v : ℚ) : ℚ := min (max a (-v)) v

/-- Python 3 `round` to an integer uses banker's rounding (round half to
even); this is the integer core of `round(x, n)`. -/
def roundHalfEven (q : ℚ) : ℤ :=
  if q - (⌊q⌋ : ℚ) < 1/2 then ⌊q⌋
  else if 1/2 < q - (⌊q⌋ : ℚ) then ⌊q⌋ + 1
  else if ⌊q⌋ % 2 = 0 then ⌊q⌋ else ⌊q⌋ + 1

/-- Python `round(q, n)` for `n` decimal places (exact-rational model of the
float computation). -/
def pyRound (q : ℚ) (n : ℕ) : ℚ := (roundHalfEven (q * 10 ^ n) : ℚ) / 10 ^ n

/-- `geo.clamp_float_round` (geo.py:50-67): clamp `v` to `[-ex, ex]` then
round to `rv` places.  The `try`/`except` passthrough never fires for numeric
input, which is the only case the model covers. -/
def clamp_float_round (v ex : ℚ) (rv : ℕ) : ℚ := pyRound (clamp v ex) rv

/-- `geo.LatLonExtents.lat` = 85.051129. -/
def latExtent : ℚ := 85.051129

/-- `geo.LatLonExtents.lon` = 180. -/
def lonExtent : ℚ := 180

/-- `geo.xyExtents.x = geo.xyExtents.y` = 20037508.342789244. -/
def xyExtent : ℚ := 20037508.342789244

/-- `geo.LatLonExtents.rv = geo.xyExtents.rv` = 8 rounding places. -/
def extRound : ℕ := 8

/-- `geo.lat_converter` (geo.py:26-29). -/
def lat_converter (lat : ℚ) : ℚ := clamp_float_round lat latExtent extRound

/-- `geo.lon_converter` (geo.py:32-35). -/
def lon_converter (lon : ℚ) : ℚ := clamp_float_round lon lonExtent extRound

/-- `geo.x_xy_converter` (geo.py:38-41). -/
def x_xy_converter (x : ℚ) : ℚ := clamp_float_round x xyExtent extRound

/-- `geo.y_xy_converter` (geo.py:44-47). -/
def y_xy_converter (y : ℚ) : ℚ := clamp_float_round y xyExtent extRound

/-- `geo.LatLon` (geo.py:128-134): a (lat, lon) point; the `attrs` field
converters clamp and round each component.  The fixed `crs` field
("EPSG:4326", `init=False`) carries no information and is omitted. -/
structure LatLon where
  lat : ℚ
  lon : ℚ
deriving DecidableEq, Repr

/-- Constructing a `geo.LatLon`: the field converters are applied to the two
positional arguments. -/
def LatLon.make (lat lon : ℚ) : LatLon := ⟨lat_converter lat, lon_converter lon⟩

/-! ## Tile identity: `static_maps/tiles.py` `TileID`

`z` is modelled as a natural number (the zoom of a tile; the Python source
computes `2**self.z`, which is only integral for non-negative `z`); `x` and
`y` are arbitrary integers, as the source never validates them. -/

structure TileID where
  z : ℕ
  x : ℤ
  y : ℤ
  scheme : String := "xyz"
deriving DecidableEq, Repr

/-- `TileID._swap_scheme` (tiles.py:76-79):
`s = "tms" if self.s == "xyz" else "xyz"; new_y = (2**self.z) - self.y - 1`. -/
def TileID.swap_scheme (t : TileID) : TileID :=
  { z := t.z, x := t.x, y := (2 ^ t.z : ℤ) - t.y - 1,
    scheme := if t.scheme = "xyz" then "tms" else "xyz" }

/-- Model of a `mercantile.Tile` namedtuple. -/
structure MercTile where
  x : ℤ
  y : ℤ
  z : ℕ
deriving DecidableEq, Repr

/-- `mercantile.parent`: integer-halve the column and row, decrement zoom. -/
def mercantile_parent (m : MercTile) : MercTile := ⟨m.x / 2, m.y / 2, m.z - 1⟩

/-- `mercantile.children`: the four quadrant tiles at the next zoom. -/
def mercantile_children (m : MercTile) : List MercTile :=
  [⟨2 * m.x, 2 * m.y, m.z + 1⟩, ⟨2 * m.x + 1, 2 * m.y, m.z + 1⟩,
   ⟨2 * m.x + 1, 2 * m.y + 1, m.z + 1⟩, ⟨2 * m.x, 2 * m.y + 1, m.z + 1⟩]

/-- Python attribute access on a `TileID` for mercantile-valued attributes:
the only such attribute the class defines is `as_mercantile`
(tiles.py:41-43); any other name raises `AttributeError`. -/
def TileID.mercAttr (t : TileID) (name : String) : Except PyErr MercTile :=
  if name = "as_mercantile" then .ok ⟨t.x, t.y, t.z⟩
  else .error (.attributeError name)

/-- `TileID(m)` with a single positional argument, as written in
`TileID(mercantile.parent(...))` (tiles.py:57, 64, 71-74): the attrs-generated
`__init__` requires `z`, `x` and `y`, so supplying one value raises
`TypeError` (x and y missing). -/
def TileID.fromSingleArg (_ : MercTile) : Except PyErr TileID :=
  .error (.typeError "TileID.__init__ missing 2 required positional arguments: x and y")

/-- `TileID.parent` (tiles.py:52-57): evaluates
`TileID(mercantile.parent(self.asmrcantile))`; the attribute name
`asmrcantile` is spelled without the underscore and the `e`, so the lookup
fails before anything else runs. -/
def TileID.parent (t : TileID) : Except PyErr TileID :=
  match t.mercAttr "asmrcantile" with
  | .error e => .error e
  | .ok m => TileID.fromSingleArg (mercantile_parent m)

/-- `TileID.children` (tiles.py:59-64). -/
def TileID.children (t : TileID) : Except PyErr (List TileID) :=
  match t.mercAttr "asmrcantile" with
  | .error e => .error e
  | .ok m => (mercantile_children m).mapM TileID.fromSingleArg

/-- `TileID.siblings` (tiles.py:66-74): all four children of the parent
(the tile itself is not filtered out). -/
def TileID.siblings (t : TileID) : Except PyErr (List TileID) :=
  match t.mercAttr "asmrcantile" with
  | .error e => .error e
  | .ok m => (mercantile_children (mercantile_parent m)).mapM TileID.fromSingleArg

/-! ## Projector: `geo.py` `Projector.latlon_to_xy` / `xy_to_latlon`

The transcendental functions of Python's `math` module (and `math.pi`) are
parameters of the model: the claims under verification only concern the
assertion gating, which is independent of their values. -/

structure MathFns where
  pi : ℚ
  log : ℚ → ℚ
  tan : ℚ → ℚ
  atan : ℚ → ℚ
  exp : ℚ → ℚ

/-- `math.degrees(x) = x * 180 / pi`. -/
def degreesF (M : MathFns) (x : ℚ) : ℚ := x * 180 / M.pi

/-- `math.radians(x) = x * pi / 180`. -/
def radiansF (M : MathFns) (x : ℚ) : ℚ := x * M.pi / 180

/-- `Projector.earth_circ` = 20037508.342789244 (geo.py:368). -/
def earth_circ : ℚ := 20037508.342789244

/-- `Projector.latlon_to_xy` (geo.py:436-447): asserts the extents, then
applies the spherical-Mercator forward formula and rounds. -/
def latlon_to_xy (M : MathFns) (pnt : ℚ × ℚ) : Except PyErr (ℚ × ℚ) :=
  if |pnt.1| ≤ latExtent then
    if |pnt.2| ≤ lonExtent then
      .ok (pyRound (pnt.2 * earth_circ / 180) extRound,
           pyRound (degreesF M (M.log (M.tan ((90 + pnt.1) * M.pi / 360)))
             * earth_circ / 180) extRound)
    else .error (.assertionError "lon out of extents")
  else .error (.assertionError "lat out of extents")

/-- `Projector.xy_to_latlon` (geo.py:449-461): asserts the extents, then
applies the inverse formula and builds a (clamping) `LatLon`. -/
def xy_to_latlon (M : MathFns) (pnt : ℚ × ℚ) : Except PyErr LatLon :=
  if |pnt.1| ≤ xyExtent then
    if |pnt.2| ≤ xyExtent then
      .ok (LatLon.make
        (pyRound (180 / M.pi
          * (2 * M.atan (M.exp (radiansF M (pnt.2 / earth_circ * 180))) - M.pi / 2))
          extRound)
        (pyRound (pnt.1 / earth_circ * 180) extRound))
    else .error (.assertionError "y out of extents")
  else .error (.assertionError "x out of extents")

/-- A concrete stand-in for Python's `math` module used by witnesses. -/
def mathFnsZero : MathFns := ⟨0, fun _ => 0, fun _ => 0, fun _ => 0, fun _ => 0⟩

/-! ## Python string helpers

Kernel-reducible models of `str.lower`, substring membership (`in`), `split`
and `float(str)`.  Lowercasing is ASCII-only, matching the source's own
comment on `BBox.__init__` ("This works for ASCII only, probably."). -/

/-- ASCII lowercase of one character. -/
def lowerChar (c : Char) : Char :=
  if 'A' ≤ c ∧ c ≤ 'Z' then Char.ofNat (c.toNat + 32) else c

/-- ASCII `str.lower()`. -/
def lowerString (s : String) : String := String.mk (s.data.map lowerChar)

def isPrefixList : List Char → List Char → Bool
  | [], _ => true
  | _ :: _, [] => false
  | a :: as, b :: bs => a == b && isPrefixList as bs

def strInAux (n : List Char) : List Char → Bool
  | [] => n.isEmpty
  | c :: t => isPrefixList n (c :: t) || strInAux n t

/-- Python's substring test `needle in hay`. -/
def pyStrIn (needle hay : String) : Bool := strInAux needle.data hay.data

/-- Python `str.split(",")` (and `str.splitOn` for a single comma). -/
def splitCommaAux : List Char → List Char → List String
  | [], acc => [String.mk acc.reverse]
  | c :: t, acc =>
    if c = ',' then String.mk acc.reverse :: splitCommaAux t []
    else splitCommaAux t (c :: acc)

def splitComma (s : String) : List String := splitCommaAux s.data []

/-- Strip leading and trailing whitespace, as `float(str)` does. -/
def trimChars (l : List Char) : List Char :=
  ((l.dropWhile (·.isWhitespace)).reverse.dropWhile (·.isWhitespace)).reverse

/-- Accumulate a run of decimal digits into a natural number. -/
def parseDigitsN : List Char → ℕ → Option ℕ
  | [], acc => some acc
  | c :: t, acc =>
    if c.isDigit then parseDigitsN t (acc * 10 + (c.toNat - 48)) else none

/-- Parse an unsigned decimal literal (`123`, `123.`, `.5`, `1.5`). -/
def parseUnsignedPyFloat (l : List Char) : Option ℚ :=
  match l.span Char.isDigit with
  | (ip, []) => if ip.isEmpty then none else (parseDigitsN ip 0).map (fun i => (i : ℚ))
  | (ip, (('.') :: fp)) =>
    if fp.all Char.isDigit then
      if ip.isEmpty && fp.isEmpty then none
      else
        match parseDigitsN ip 0, parseDigitsN fp 0 with
        | some i, some f => some ((i : ℚ) + (f : ℚ) / 10 ^ fp.length)
        | _, _ => none
    else none
  | _ => none

/-- Python `float(s)` on a decimal string (no exponents, which never occur
in the inputs of interest). -/
def parsePyFloat (s : String) : Option ℚ :=
  match trimChars s.data with
  | (('-') :: t) => (parseUnsignedPyFloat t).map Neg.neg
  | (('+') :: t) => parseUnsignedPyFloat t
  | l => parseUnsignedPyFloat l

/-! ## Bounding boxes: `geo.py` `BBoxBase` / `BBox` / `LatLonBBox` -/

/-- A Python value passed to the `BBox` constructor. -/
inductive PyVal where
  | num (q : ℚ)
  | str (s : String)
deriving DecidableEq, Repr

/-- `dict.get`-style lookup in an insertion-ordered dict model. -/
def pyGet (d : List (String × PyVal)) (k : String) : Option PyVal :=
  (d.find? (fun p => p.1 == k)).map Prod.snd

/-- `d[k] = v` on an insertion-ordered dict model: replaces in place if the
key exists, else appends. -/
def pyUpsert (d : List (String × PyVal)) (k : String) (v : PyVal) : List (String × PyVal) :=
  if d.any (fun p => p.1 == k) then d.map (fun p => if p.1 == k then (k, v) else p)
  else d ++ [(k, v)]

/-- `BBox.__init__`'s `bbox_aliases` table (geo.py:235-241). -/
def bbox_aliases : List (List String × String) :=
  [(["_lln", "maxy", "ymax", "north", "n", "t", "up", "u"], "top"),
   (["_lls", "miny", "ymin", "south", "s", "b", "down", "d"], "bottom"),
   (["_llw", "minx", "xmin", "west", "w", "l"], "left"),
   (["_lle", "maxx", "xmax", "east", "e", "r"], "right"),
   (["_llc", "srs"], "crs")]

/-- `BBox.lookup` (geo.py:276-284): first alias group containing `k` (or
whose canonical name is `k`); unknown keys are a `TypeError`. -/
def bboxLookup (k : String) : Option String :=
  (bbox_aliases.find? (fun p => p.1.contains k || p.2 == k)).map Prod.snd

/-- The stored fields of a `BBoxBase` (geo.py:144-149).  `point_type` is
determined by the class and carried as `BBoxKind` below. -/
structure BBoxV where
  left : ℚ
  top : ℚ
  right : ℚ
  bottom : ℚ
  crs : String := ""
deriving DecidableEq, Repr

/-- The `float` converter (with `instance_of((float, int))` validation)
applied by attrs to each geometric field. -/
def pyFloatOf : PyVal → Except PyErr ℚ
  | .num q => .ok q
  | .str s =>
    match parsePyFloat s with
    | some q => .ok q
    | none => .error (.valueError ("could not convert string to float: " ++ s))

/-- `self.__attrs_init__(**a)` for `BBox` (geo.py:251): `left`, `top`,
`right`, `bottom` are required and converted to float; `crs` defaults to ""
and must be a string. -/
def attrsInitBBox (a : List (String × PyVal)) : Except PyErr BBoxV := do
  let geta := fun (k : String) =>
    match pyGet a k with
    | some v => Except.ok v
    | none => Except.error (PyErr.typeError ("missing required argument: " ++ k))
  let l ← geta "left" >>= pyFloatOf
  let t ← geta "top" >>= pyFloatOf
  let r ← geta "right" >>= pyFloatOf
  let b ← geta "bottom" >>= pyFloatOf
  let crs ← match pyGet a "crs" with
    | none => Except.ok ""
    | some (.str s) => Except.ok s
    | some (.num _) => Except.error (PyErr.typeError "crs must be an instance of str")
  return ⟨l, t, r, b, crs⟩

/-- `BBox.__init__` (geo.py:234-251): lowercases the keyword keys, resolves
them through `lookup`, zips the positional arguments against
`("left","top","right","bottom","crs")`, and lets the positionals override
(`a.update(b)`) before calling the attrs init. -/
def bbox_init (args : List PyVal) (kwargs : List (String × PyVal)) : Except PyErr BBoxV := do
  let lowered := kwargs.foldl (fun d p => pyUpsert d (lowerString p.1) p.2) []
  let a ← lowered.foldlM (fun d p =>
    match bboxLookup p.1 with
    | some k => Except.ok (pyUpsert d k p.2)
    | none => Except.error (PyErr.typeError (p.1 ++ " is not a supported alias."))) []
  let b := List.zip ["left", "top", "right", "bottom", "crs"] args
  let merged := b.foldl (fun d p => pyUpsert d p.1 p.2) a
  attrsInitBBox merged

/-- Which `__iter__` the instance uses: `BBoxBase`/`BBox`/`xyBBox` iterate as
(left, top, right, bottom) (geo.py:188-189); `LatLonBBox` overrides the order
to (top, left, bottom, right) (geo.py:329-330). -/
inductive BBoxKind where
  | base
  | latlon
deriving DecidableEq, Repr

/-- `tuple(self)` for a bbox of the given kind. -/
def bboxTuple (k : BBoxKind) (bb : BBoxV) : ℚ × ℚ × ℚ × ℚ :=
  match k with
  | .base => (bb.left, bb.top, bb.right, bb.bottom)
  | .latlon => (bb.top, bb.left, bb.bottom, bb.right)

/-- `BBoxBase.__contains__` (geo.py:204-209): `pa, pb = pnt`;
`l, t, r, b = tuple(self)`; `return l < pa < r and b < pb < t`.  The point is
iterated in its own slot order: `(x, y)` for `Point`, `(lat, lon)` for
`LatLon`. -/
def bboxContainsPoint (k : BBoxKind) (bb : BBoxV) (pnt : ℚ × ℚ) : Bool :=
  let q := bboxTuple k bb
  decide (q.1 < pnt.1 ∧ pnt.1 < q.2.2.1) && decide (q.2.2.2 < pnt.2 ∧ pnt.2 < q.2.1)

/-! ## `LatLonBBox.from_wgs84_order`

The factory is called from `mbtiles/mbtiles.py:147` and exercised by
`test_geo.py`, but its definition is absent from the sources; it is modelled
from the spec below. -/

/-- The stored fields of a `LatLonBBox` (geo.py:289-300); `crs` is fixed to
"EPSG:4326" and omitted.  Axis meaning: top=north lat, left=west lon,
bottom=south lat, right=east lon; each field is clamped/rounded by the
`lat_field`/`lon_field` converters. -/
structure LatLonBBoxV where
  left : ℚ
  top : ℚ
  right : ℚ
  bottom : ℚ
deriving DecidableEq, Repr

/-- Constructing a `LatLonBBox` from (n, w, s, e) values: the field
converters clamp and round each component. -/
def LatLonBBoxV.make (n w s e' : ℚ) : LatLonBBoxV :=
  ⟨lon_converter w, lat_converter n, lon_converter e', lat_converter s⟩

/-- The three accepted call shapes of `from_wgs84_order`: 4 positional
numbers, a single comma-delimited string, or a single 4-tuple/list. -/
inductive Wgs84Input where
  | nums (w s e n : ℚ)
  | strForm (s : String)
  | seqForm (l : List ℚ)

/-- Modelled from the spec: the validation step of
`LatLonBBox.from_wgs84_order` (absent from the sources; spec §4.2: "must
validate n≥s and that east/west aren't reversed before constructing; raises a
value error naming which axis pair is invalid otherwise"). -/
def wgs84_validate (w s e' n : ℚ) : Except PyErr LatLonBBoxV :=
  if n < s then .error (.valueError "north/south values swapped: north < south")
  else if e' < w then .error (.valueError "east/west values swapped: east < west")
  else .ok (LatLonBBoxV.make n w s e')

/-- Modelled from the spec: `LatLonBBox.from_wgs84_order` (absent from the
sources; only its caller `mbtiles.py:147` and tests exist).  Spec §4.2:
"accepts either 4 positional numbers, a single comma-delimited string, or a
single 4-tuple/list", in WGS84 order (w, s, e, n), and constructs the
LatLonBBox with top=n, left=w, bottom=s, right=e after validation. -/
def from_wgs84_order : Wgs84Input → Except PyErr LatLonBBoxV
  | .nums w s e' n => wgs84_validate w s e' n
  | .seqForm l =>
    match l with
    | [w, s, e', n] => wgs84_validate w s e' n
    | _ => .error (.typeError "from_wgs84_order expects 4 values")
  | .strForm str =>
    match (splitComma str).map parsePyFloat with
    | [some w, some s, some e', some n] => wgs84_validate w s e' n
    | _ => .error (.valueError "could not parse bounds string")

/-! ## Downloader: `static_maps/tiles.py` `Downloader` / `SlippyTileDownloader`
/ `TileDownloader.download_or_local`

The HTTP layer is modelled by a stream of events, one per `requests.get`
call: either a connection error or a response with a status code, a
Content-Type header and a body.  URL template interpolation and logging do
not affect the observable behavior and are not modelled. -/

/-- One `requests.get` outcome. -/
inductive HttpEvent where
  | connError
  | resp (status : ℕ) (contentType : String) (content : String)

/-- The keys of the module-level `image_types` dict (tiles.py:214-222). -/
def image_types_keys : List String := ["png", "jpg", "jpeg", "bmp", "webp", "tiff", "gif"]

/-- `d.get(k, dflt)` on a string-valued dict model. -/
def sGet (d : List (String × String)) (k : String) (dflt : String) : String :=
  match d.find? (fun p => p.1 == k) with
  | some p => p.2
  | none => dflt

/-- `d[k] = v` on an insertion-ordered dict model. -/
def dictUpsert {α : Type} (d : List (String × α)) (k : String) (v : α) :
    List (String × α) :=
  if d.any (fun p => p.1 == k) then d.map (fun p => if p.1 == k then (k, v) else p)
  else d ++ [(k, v)]

/-- `d.update(ext)` on a string-valued dict model. -/
def dictUpdate (d ext : List (String × String)) : List (String × String) :=
  ext.foldl (fun acc p => dictUpsert acc p.1 p.2) d

/-- The `Downloader` attrs fields that matter to the modelled behavior
(tiles.py:225-234): `retries` defaults to 5 and `backoff_time` to 1. -/
structure Downloader where
  url : String := ""
  params : List (String × String) := []
  fields : List (String × String) := []
  headers : List (String × String) := []
  retries : ℕ := 5
  backoff_time : ℚ := 1

/-- `Downloader._extra_override` (tiles.py:320-327): update the instance
dict with `extra` (when non-empty), then return `override` if it is
non-empty, else the updated dict. -/
def extra_override (self_v override extra : List (String × String)) :
    List (String × String) :=
  let v := if extra.isEmpty then self_v else dictUpdate self_v extra
  if override.isEmpty then v else override

/-- The retry loop of `Downloader.download` (tiles.py:281-318).  Each
iteration consumes one event; a connection error sleeps `backoff` (recorded
in the returned list) and continues with `backoff ** 2`; a response is
checked for Content-Type (`pf not in rh_ct and pf not in self.image_types`
raises), then 200 or an acceptable status returns the content and anything
else raises; an exhausted loop raises the terminal download error. -/
def dlGo (pf : String) (acceptable : List ℕ) (events : ℕ → HttpEvent) :
    ℕ → ℕ → ℚ → Except PyErr String × List ℚ
  | _, 0, _ => (.error (.downloadError .retriesExhausted), [])
  | idx, rem + 1, backoff =>
    match events idx with
    | .connError =>
      let out := dlGo pf acceptable events (idx + 1) rem (backoff ^ 2)
      (out.1, backoff :: out.2)
    | .resp status ct content =>
      let rh_ct := lowerString ct
      if ¬ (pyStrIn pf rh_ct = true) ∧ ¬ (image_types_keys.contains pf = true) then
        (.error (.downloadError (.badContentType rh_ct pf)), [])
      else if status = 200 then (.ok content, [])
      else if acceptable.contains status then (.ok content, [])
      else (.error (.downloadError (.badStatus status)), [])

/-- `Downloader.download` (tiles.py:244-318): resolves the per-call
dictionaries through `_extra_override`, computes
`pf = params.get("format", fields.get("fmt", ""))` and runs the retry loop
starting from `self.backoff_time`.  Returns the result together with the
list of sleep durations performed. -/
def download (d : Downloader) (url : String) (acceptable : List ℕ)
    (params_override fields_override headers_override : List (String × String))
    (params_extra fields_extra headers_extra : List (String × String))
    (events : ℕ → HttpEvent) : Except PyErr String × List ℚ :=
  let _final_url := if url.isEmpty then d.url else url
  let params := extra_override d.params params_override params_extra
  let fields := extra_override d.fields fields_override fields_extra
  let _headers := extra_override d.headers headers_override headers_extra
  let pf := sGet params "format" (sGet fields "fmt" "")
  dlGo pf acceptable events 0 d.retries d.backoff_time

/-- The `fmt` attribute of a `Tile` can be a string, or — through the
`image_fmt_guess[0]` default in `SlippyTileDownloader.download_tile`
(tiles.py:366-367) — a boolean. -/
inductive FmtV where
  | str (s : String)
  | boolean (b : Bool)
deriving DecidableEq, Repr

/-- `Tile` (tiles.py:94-100): a TileID plus raw image bytes (modelled as a
string) and metadata defaults. -/
structure Tile where
  tid : TileID
  img_data : String
  name : String := ""
  resolution : ℕ := 256
  fmt : FmtV := .str "jpeg"
deriving DecidableEq, Repr

/-- `SlippyTileDownloader.download_tile` (tiles.py:351-369): fills the
{z,x,y} fields, delegates to `download` (propagating its exceptions), and
wraps the payload in a `Tile` whose `fmt` is the "fmt" field if set, else
`image_fmt_guess[0]`, i.e. the boolean `"png" in self.url`. -/
def slippy_download_tile (d : Downloader) (events : ℕ → HttpEvent) (tid : TileID) :
    Except PyErr (Option Tile) :=
  let fe := [("z", toString tid.z), ("x", toString tid.x), ("y", toString tid.y)]
  match (download d "" [] [] [] [] [] fe [] events).1 with
  | .error e => .error e
  | .ok content =>
    let fields := dictUpdate d.fields fe
    let f : FmtV :=
      match fields.find? (fun p => p.1 == "fmt") with
      | some p => .str p.2
      | none => .boolean (pyStrIn "png" d.url)
    .ok (some { tid := tid, img_data := content, fmt := f })

/-- `TileID.get_urlform` with the default order "zxy" (tiles.py:45-46). -/
def tid_urlform (t : TileID) : String :=
  toString t.z ++ "/" ++ toString t.x ++ "/" ++ toString t.y

/-- The in-memory `_storage` dict of a `TileStorage` created without a
`base_path` (tiles.py:558-564), keyed by the tile's urlform. -/
def TileStore : Type := List (String × Tile)

/-- `TileStorage.get_tile` on the memory backend (tiles.py:585-587,604-607). -/
def storage_get_tile (st : TileStore) (tid : TileID) : Option Tile :=
  ((st : List (String × Tile)).find? (fun p => p.1 == tid_urlform tid)).map Prod.snd

/-- `TileStorage.add_tile` on the memory backend (tiles.py:567-572,600-602). -/
def storage_add_tile (st : TileStore) (t : Tile) : TileStore :=
  dictUpsert (st : List (String × Tile)) (tid_urlform t.tid) t

/-- `return res` (tiles.py:344) under Python local-variable semantics:
`res` is assigned only inside the `if folder:` branch, so reading it when the
branch was skipped raises `UnboundLocalError`. -/
def returnRes (res : Option (Option Tile)) : Except PyErr (Option Tile) :=
  match res with
  | none => .error (.unboundLocalError "res")
  | some v => .ok v

/-- Observable outcome of one `download_or_local` call: the returned value
(or exception), the final folder contents, and how many times
`download_tile` was invoked. -/
structure DlolOut where
  result : Except PyErr (Option Tile)
  folder : Option TileStore
  downloads : ℕ

/-- `TileDownloader.download_or_local` (tiles.py:334-344), parameterized by
the subclass's `download_tile` method:

    if folder:
        res = folder.get_tile(tid)
        if res: return res
        else:
            res = self.download_tile(tid)
            if res is None: return None
            folder.add_tile(res)
    return res
-/
def download_or_local (dl_tile : TileID → Except PyErr (Option Tile)) (tid : TileID)
    (folder : Option TileStore) : DlolOut :=
  match folder with
  | some st =>
    match storage_get_tile st tid with
    | some t => ⟨.ok (some t), some st, 0⟩
    | none =>
      match dl_tile tid with
      | .error e => ⟨.error e, some st, 1⟩
      | .ok none => ⟨.ok none, some st, 1⟩
      | .ok (some t) => ⟨returnRes (some (some t)), some (storage_add_tile st t), 1⟩
  | none => ⟨returnRes none, none, 0⟩

/-! ### Bounds lemmas for the clamp/round pipeline -/

lemma clamp_le_right (a v : ℚ) : clamp a v ≤ v := min_le_right _ _

lemma neg_le_clamp (a v : ℚ) (h : 0 ≤ v) : -v ≤ clamp a v :=
  le_min (le_max_right _ _) (neg_le_self h)

lemma roundHalfEven_le {q : ℚ} {N : ℤ} (h : q ≤ (N : ℚ)) : roundHalfEven q ≤ N := by
  have hf : ⌊q⌋ ≤ N := by
    have := Int.floor_le_floor (α := ℚ) h
    simpa using this
  have hq : (⌊q⌋ : ℚ) ≤ q := Int.floor_le q
  have key : ¬ (q - (⌊q⌋ : ℚ) < 1/2) → ⌊q⌋ + 1 ≤ N := by
    intro hr
    have h2 : (⌊q⌋ : ℚ) + 1/2 ≤ q := by
      have := le_of_not_lt hr
      linarith
    have h3 : (⌊q⌋ : ℚ) < (N : ℚ) := by linarith
    have : ⌊q⌋ < N := by exact_mod_cast h3
    omega
  unfold roundHalfEven
  split
  · exact hf
  · next hr =>
    split
    · exact key hr
    · split
      · exact hf
      · exact key hr

lemma le_roundHalfEven {q : ℚ} {N : ℤ} (h : (N : ℚ) ≤ q) : N ≤ roundHalfEven q := by
  have hf : N ≤ ⌊q⌋ := Int.le_floor.mpr h
  unfold roundHalfEven
  split
  · exact hf
  · split
    · omega
    · split
      · exact hf
      · omega

lemma pyRound_le_of_le {q B : ℚ} {n : ℕ} {N : ℤ} (hN : (N : ℚ) = B * 10 ^ n)
    (h : q ≤ B) : pyRound q n ≤ B := by
  have hpow : (0 : ℚ) < 10 ^ n := by positivity
  have h1 : q * 10 ^ n ≤ (N : ℚ) := by
    rw [hN]
    exact mul_le_mul_of_nonneg_right h (le_of_lt hpow)
  have h2 : roundHalfEven (q * 10 ^ n) ≤ N := roundHalfEven_le h1
  have h3 : ((roundHalfEven (q * 10 ^ n) : ℚ)) ≤ (N : ℚ) := by exact_mod_cast h2
  unfold pyRound
  rw [div_le_iff₀ hpow, ← hN]
  linarith

lemma le_pyRound_of_le {q B : ℚ} {n : ℕ} {N : ℤ} (hN : (N : ℚ) = B * 10 ^ n)
    (h : B ≤ q) : B ≤ pyRound q n := by
  have hpow : (0 : ℚ) < 10 ^ n := by positivity
  have h1 : (N : ℚ) ≤ q * 10 ^ n := by
    rw [hN]
    exact mul_le_mul_of_nonneg_right h (le_of_lt hpow)
  have h2 : N ≤ roundHalfEven (q * 10 ^ n) := le_roundHalfEven h1
  have h3 : (N : ℚ) ≤ ((roundHalfEven (q * 10 ^ n) : ℚ)) := by exact_mod_cast h2
  unfold pyRound
  rw [le_div_iff₀ hpow, ← hN]
  linarith

/-- Claim C4: for every numeric input pair, `LatLon` construction succeeds and
clamps the latitude to `[-85.051129, 85.051129]` and the longitude to
`[-180, 180]`, rounding both to 8 decimal places; in particular
`LatLon(200, 0).lat == 85.051129`. -/
theorem latLon_construction_clamps (lat lon : ℚ) :
    (LatLon.make lat lon).lat = pyRound (clamp lat latExtent) extRound
    ∧ (LatLon.make lat lon).lon = pyRound (clamp lon lonExtent) extRound
    ∧ -latExtent ≤ (LatLon.make lat lon).lat
    ∧ (LatLon.make lat lon).lat ≤ latExtent
    ∧ -lonExtent ≤ (LatLon.make lat lon).lon
    ∧ (LatLon.make lat lon).lon ≤ lonExtent
    ∧ (LatLon.make 200 0).lat = 85.051129 := by
  refine ⟨rfl, rfl, ?_, ?_, ?_, ?_, ?_⟩
  · have h := neg_le_clamp lat latExtent (by norm_num [latExtent])
    have := le_pyRound_of_le (q := clamp lat latExtent) (B := -latExtent)
      (n := extRound) (N := -8505112900) (by norm_num [latExtent, extRound]) h
    simpa [LatLon.make, lat_converter, clamp_float_round] using this
  · have h := clamp_le_right lat latExtent
    have := pyRound_le_of_le (q := clamp lat latExtent) (B := latExtent)
      (n := extRound) (N := 8505112900) (by norm_num [latExtent, extRound]) h
    simpa [LatLon.make, lat_converter, clamp_float_round] using this
  · have h := neg_le_clamp lon lonExtent (by norm_num [lonExtent])
    have := le_pyRound_of_le (q := clamp lon lonExtent) (B := -lonExtent)
      (n := extRound) (N := -18000000000) (by norm_num [lonExtent, extRound]) h
    simpa [LatLon.make, lon_converter, clamp_float_round] using this
  · have h := clamp_le_right lon lonExtent
    have := pyRound_le_of_le (q := clamp lon lonExtent) (B := lonExtent)
      (n := extRound) (N := 18000000000) (by norm_num [lonExtent, extRound]) h
    simpa [LatLon.make, lon_converter, clamp_float_round] using this
  · show lat_converter 200 = 85.051129
    norm_num [lat_converter, clamp_float_round, pyRound, clamp, roundHalfEven,
      latExtent, extRound, min_def, max_def]

/-- Claim C2: one scheme flip keeps `z` and `x`, maps the row to
`2^z - y - 1`, toggles the scheme tag, and applying the flip twice reproduces
the original `TileID` exactly. -/
theorem tileID_swap_scheme_involutive (t : TileID)
    (h : t.scheme = "xyz" ∨ t.scheme = "tms") :
    t.swap_scheme.z = t.z ∧ t.swap_scheme.x = t.x
    ∧ t.swap_scheme.y = (2 ^ t.z : ℤ) - t.y - 1
    ∧ (t.scheme = "xyz" → t.swap_scheme.scheme = "tms")
    ∧ (t.scheme = "tms" → t.swap_scheme.scheme = "xyz")
    ∧ t.swap_scheme.swap_scheme = t := by
  obtain ⟨z, x, y, s⟩ := t
  have hy : ∀ w : ℤ, (2 ^ z : ℤ) - ((2 ^ z : ℤ) - w - 1) - 1 = w := fun w => by ring
  rcases h with h | h <;> subst h
  · exact ⟨rfl, rfl, rfl, fun _ => by simp [TileID.swap_scheme],
      fun h' => by simp at h', by simp [TileID.swap_scheme, hy]⟩
  · exact ⟨rfl, rfl, rfl, fun h' => by simp at h',
      fun _ => by simp [TileID.swap_scheme], by simp [TileID.swap_scheme, hy]⟩

/-- Witness for C2 at the concrete tile (z=3, x=2, y=1, scheme="xyz"). -/
theorem tileID_swap_scheme_involutive_witness :
    (TileID.mk 3 2 1 "xyz").swap_scheme.swap_scheme = TileID.mk 3 2 1 "xyz"
    ∧ (TileID.mk 3 2 1 "xyz").swap_scheme.y = 6 :=
  ⟨(tileID_swap_scheme_involutive ⟨3, 2, 1, "xyz"⟩ (Or.inl rfl)).2.2.2.2.2,
   by decide⟩

/-- Claim C6: the quadtree accessors never return tiles — every access to
`parent`, `children` or `siblings` evaluates `self.asmrcantile`, an attribute
that does not exist (the property is named `as_mercantile`), so each raises
`AttributeError` for every `TileID`; in particular at TileID(1, 0, 0). -/
theorem tileID_quadtree_accessors_raise (t : TileID) :
    t.parent = .error (.attributeError "asmrcantile")
    ∧ t.children = .error (.attributeError "asmrcantile")
    ∧ t.siblings = .error (.attributeError "asmrcantile")
    ∧ (TileID.mk 1 0 0 "xyz").parent = .error (.attributeError "asmrcantile") :=
  ⟨rfl, rfl, rfl, rfl⟩

/-- Claim C5: `latlon_to_xy` fails with an assertion error whenever
`|lat| > 85.051129` or `|lon| > 180` and `xy_to_latlon` fails whenever `|x|`
or `|y|` exceeds 20037508.342789244; within the extents the assertions pass
and the conversion is performed. -/
theorem projector_asserts_extents (M : MathFns) (p q : ℚ × ℚ) :
    (latExtent < |p.1| →
      latlon_to_xy M p = .error (.assertionError "lat out of extents"))
    ∧ (|p.1| ≤ latExtent → lonExtent < |p.2| →
      latlon_to_xy M p = .error (.assertionError "lon out of extents"))
    ∧ (|p.1| ≤ latExtent → |p.2| ≤ lonExtent → ∃ r, latlon_to_xy M p = .ok r)
    ∧ (xyExtent < |q.1| →
      xy_to_latlon M q = .error (.assertionError "x out of extents"))
    ∧ (|q.1| ≤ xyExtent → xyExtent < |q.2| →
      xy_to_latlon M q = .error (.assertionError "y out of extents"))
    ∧ (|q.1| ≤ xyExtent → |q.2| ≤ xyExtent → ∃ r, xy_to_latlon M q = .ok r) := by
  refine ⟨?_, ?_, ?_, ?_, ?_, ?_⟩
  · intro h
    simp [latlon_to_xy, not_le.mpr h]
  · intro h1 h2
    simp [latlon_to_xy, h1, not_le.mpr h2]
  · intro h1 h2
    simp [latlon_to_xy, h1, h2]
  · intro h
    simp [xy_to_latlon, not_le.mpr h]
  · intro h1 h2
    simp [xy_to_latlon, h1, not_le.mpr h2]
  · intro h1 h2
    simp [xy_to_latlon, h1, h2]

/-- Witness for C5: the theorem applied at lat=100 (out of range), at
(45, 90) (in range), and at x=30000000 (out of range). -/
theorem projector_asserts_extents_witness :
    latlon_to_xy mathFnsZero (100, 0) = .error (.assertionError "lat out of extents")
    ∧ (∃ r, latlon_to_xy mathFnsZero (45, 90) = .ok r)
    ∧ xy_to_latlon mathFnsZero (30000000, 0) = .error (.assertionError "x out of extents") := by
  refine ⟨?_, ?_, ?_⟩
  · exact (projector_asserts_extents mathFnsZero (100, 0) (0, 0)).1
      (by norm_num [latExtent, abs])
  · exact (projector_asserts_extents mathFnsZero (45, 90) (0, 0)).2.2.1
      (by norm_num [latExtent, abs]) (by norm_num [lonExtent, abs])
  · exact (projector_asserts_extents mathFnsZero (0, 0) (30000000, 0)).2.2.2.1
      (by norm_num [xyExtent, abs])

lemma exceptErr_bind {α β : Type} (e : PyErr) (f : α → Except PyErr β) :
    (Except.error e >>= f) = Except.error e := rfl

/-- Counterexample to claim C3: for the LatLonBBox with north=10, west=-10,
south=-10, east=10, the interior point LatLon(0, 0) satisfies the claimed
strict-interior predicate, yet `point in bbox` is False — `LatLonBBox`'s
reordered `__iter__` makes `__contains__` unpack (top, left, bottom, right)
as (l, t, r, b). -/
theorem latlonBBox_contains_refutes_claim :
    ((⟨-10, 10, 10, -10, "EPSG:4326"⟩ : BBoxV).left < 0
      ∧ (0 : ℚ) < (⟨-10, 10, 10, -10, "EPSG:4326"⟩ : BBoxV).right
      ∧ (⟨-10, 10, 10, -10, "EPSG:4326"⟩ : BBoxV).bottom < 0
      ∧ (0 : ℚ) < (⟨-10, 10, 10, -10, "EPSG:4326"⟩ : BBoxV).top)
    ∧ bboxContainsPoint .latlon ⟨-10, 10, 10, -10, "EPSG:4326"⟩ (0, 0) = false :=
  ⟨by norm_num, by decide⟩

/-- Claim C3, amended: for `BBoxBase`/`BBox`/`xyBBox` the membership test is
exactly the strict-interior predicate `left < px < right ∧ bottom < py < top`;
for `LatLonBBox` the reordered iteration makes it
`top < lat < bottom ∧ right < lon < left`; in every case a point lying
exactly on any edge is never contained. -/
theorem bbox_contains_strict_and_boundary_exclusive (bb : BBoxV) (p : ℚ × ℚ) :
    (bboxContainsPoint .base bb p = true ↔
      (bb.left < p.1 ∧ p.1 < bb.right ∧ bb.bottom < p.2 ∧ p.2 < bb.top))
    ∧ (bboxContainsPoint .latlon bb p = true ↔
      (bb.top < p.1 ∧ p.1 < bb.bottom ∧ bb.right < p.2 ∧ p.2 < bb.left))
    ∧ ((p.1 = bb.left ∨ p.1 = bb.right ∨ p.2 = bb.top ∨ p.2 = bb.bottom) →
      bboxContainsPoint .base bb p = false)
    ∧ ((p.1 = bb.top ∨ p.1 = bb.bottom ∨ p.2 = bb.left ∨ p.2 = bb.right) →
      bboxContainsPoint .latlon bb p = false) := by
  refine ⟨?_, ?_, ?_, ?_⟩
  · simp [bboxContainsPoint, bboxTuple, and_assoc]
  · simp [bboxContainsPoint, bboxTuple, and_assoc]
  · rintro (h | h | h | h) <;> simp [bboxContainsPoint, bboxTuple, h]
  · rintro (h | h | h | h) <;> simp [bboxContainsPoint, bboxTuple, h]

/-- Witness for the amended C3 at a concrete box and point. -/
theorem bbox_contains_strict_and_boundary_exclusive_witness :
    bboxContainsPoint .base ⟨-10, 10, 10, -10, ""⟩ (0, 0) = true
    ∧ bboxContainsPoint .base ⟨-10, 10, 10, -10, ""⟩ (10, 0) = false := by
  constructor
  · exact (bbox_contains_strict_and_boundary_exclusive ⟨-10, 10, 10, -10, ""⟩ (0, 0)).1.mpr
      (by norm_num)
  · exact (bbox_contains_strict_and_boundary_exclusive ⟨-10, 10, 10, -10, ""⟩ (10, 0)).2.2.1
      (Or.inr (Or.inl rfl))

/-- Counterexample to claim C8: supplying `left` both positionally and as a
keyword does not raise — construction succeeds and the positional value
silently wins (`a.update(b)` in geo.py:249 lets positionals override). -/
theorem bbox_init_conflict_refutes_claim :
    bbox_init [.num 1, .num 2, .num 3, .num 4] [("left", .num 9)]
      = .ok ⟨1, 2, 3, 4, ""⟩ := rfl

/-- Claim C8, amended: an axis supplied both positionally and by keyword is
not an error — the positional value silently overrides the keyword; an
unknown keyword alias does raise a TypeError; missing geometric values raise
a TypeError from the attrs init; extra positional arguments beyond the 5th
are silently dropped by the zip. -/
theorem bbox_init_merge_behavior (l t r b v : ℚ) (k : String) (pv : PyVal) :
    bbox_init [.num l, .num t, .num r, .num b] [("left", .num v)] = .ok ⟨l, t, r, b, ""⟩
    ∧ (bboxLookup (lowerString k) = none →
        bbox_init [.num l, .num t, .num r, .num b] [(k, pv)]
          = .error (.typeError (lowerString k ++ " is not a supported alias.")))
    ∧ bbox_init [.num l, .num t, .num r] []
      = .error (.typeError "missing required argument: bottom")
    ∧ bbox_init [.num l, .num t, .num r, .num b, .str "c", pv] [] = .ok ⟨l, t, r, b, "c"⟩ := by
  refine ⟨rfl, ?_, rfl, rfl⟩
  intro h
  simp [bbox_init, pyUpsert, h, exceptErr_bind]

/-- Witness for the amended C8: the unknown-alias branch at the concrete
keyword "potato". -/
theorem bbox_init_merge_behavior_witness :
    bbox_init [.num 1, .num 2, .num 3, .num 4] [("potato", .num 0)]
      = .error (.typeError (lowerString "potato" ++ " is not a supported alias.")) :=
  (bbox_init_merge_behavior 1 2 3 4 0 "potato" (.num 0)).2.1 (by decide)

/-- Claim C1: `from_wgs84_order` accepts 4 numbers, a comma-delimited string
or a 4-sequence; rejects n < s naming the north/south pair and reversed
east/west naming that pair; and on valid input returns the LatLonBBox with
top=n, left=w, bottom=s, right=e. -/
theorem from_wgs84_order_validates (w s e' n : ℚ) :
    (n < s → from_wgs84_order (.nums w s e' n)
      = .error (.valueError "north/south values swapped: north < south"))
    ∧ (s ≤ n → e' < w → from_wgs84_order (.nums w s e' n)
      = .error (.valueError "east/west values swapped: east < west"))
    ∧ (s ≤ n → w ≤ e' → from_wgs84_order (.nums w s e' n)
      = .ok (LatLonBBoxV.make n w s e'))
    ∧ from_wgs84_order (.seqForm [w, s, e', n]) = from_wgs84_order (.nums w s e' n)
    ∧ (∀ str : String,
        (splitComma str).map parsePyFloat = [some w, some s, some e', some n] →
        from_wgs84_order (.strForm str) = from_wgs84_order (.nums w s e' n))
    ∧ (lat_converter n = n → lat_converter s = s → lon_converter w = w →
        lon_converter e' = e' → s ≤ n → w ≤ e' →
        from_wgs84_order (.nums w s e' n) = .ok ⟨w, n, e', s⟩) := by
  refine ⟨?_, ?_, ?_, rfl, ?_, ?_⟩
  · intro h
    simp [from_wgs84_order, wgs84_validate, h]
  · intro h1 h2
    simp [from_wgs84_order, wgs84_validate, not_lt.mpr h1, h2]
  · intro h1 h2
    simp [from_wgs84_order, wgs84_validate, not_lt.mpr h1, not_lt.mpr h2]
  · intro str h
    simp [from_wgs84_order, h]
  · intro c1 c2 c3 c4 h1 h2
    simp [from_wgs84_order, wgs84_validate, not_lt.mpr h1, not_lt.mpr h2,
      LatLonBBoxV.make, c1, c2, c3, c4]

/-- Witness for C1: the theorem applied at the world bounds (-180, -85, 180,
85) in all three call shapes and at a north/south-swapped input. -/
theorem from_wgs84_order_validates_witness :
    from_wgs84_order (.nums (-180) (-85) 180 85) = .ok ⟨-180, 85, 180, -85⟩
    ∧ from_wgs84_order (.strForm "-180, -85, 180, 85") = .ok ⟨-180, 85, 180, -85⟩
    ∧ from_wgs84_order (.seqForm [-180, -85, 180, 85]) = .ok ⟨-180, 85, 180, -85⟩
    ∧ from_wgs84_order (.nums (-180) 85 180 (-85))
      = .error (.valueError "north/south values swapped: north < south") := by
  have base := (from_wgs84_order_validates (-180) (-85) 180 85).2.2.2.2.2
    (by norm_num [lat_converter, clamp_float_round, pyRound, clamp, roundHalfEven,
      latExtent, extRound, min_def, max_def])
    (by norm_num [lat_converter, clamp_float_round, pyRound, clamp, roundHalfEven,
      latExtent, extRound, min_def, max_def])
    (by norm_num [lon_converter, clamp_float_round, pyRound, clamp, roundHalfEven,
      lonExtent, extRound, min_def, max_def])
    (by norm_num [lon_converter, clamp_float_round, pyRound, clamp, roundHalfEven,
      lonExtent, extRound, min_def, max_def])
    (by norm_num) (by norm_num)
  refine ⟨base, ?_, ?_, ?_⟩
  · have hs := (from_wgs84_order_validates (-180) (-85) 180 85).2.2.2.2.1
      "-180, -85, 180, 85" (by decide)
    rw [hs, base]
  · have hq := (from_wgs84_order_validates (-180) (-85) 180 85).2.2.2.1
    rw [hq, base]
  · exact (from_wgs84_order_validates (-180) 85 180 (-85)).1 (by norm_num)

lemma strInAux_nil_needle (l : List Char) : strInAux [] l = true := by
  cases l <;> simp [strInAux, isPrefixList]

lemma pyStrIn_empty_needle (s : String) : pyStrIn "" s = true :=
  strInAux_nil_needle s.data

/-- Claim C10: calling `download_or_local` with `folder=None` never invokes
`download_tile` and never returns a tile — the `return res` line reads a
local that was never assigned, raising `UnboundLocalError`. -/
theorem download_or_local_none_folder_unbound
    (dl_tile : TileID → Except PyErr (Option Tile)) (tid : TileID) :
    download_or_local dl_tile tid none
      = ⟨.error (.unboundLocalError "res"), none, 0⟩ := rfl

/-- Counterexample to claim C7: with an empty storage folder, a 404 response
makes `download_or_local` raise a download error (the status check in
`Downloader.download` raises for any non-200 status not in
`acceptable_status`, which `download_tile` leaves empty) — it does not yield
None. -/
theorem download_or_local_404_refutes_claim :
    (download_or_local (slippy_download_tile {} (fun _ => .resp 404 "text/html" "nf"))
      ⟨0, 0, 0, "xyz"⟩ (some ([] : List (String × Tile)))).result
      = .error (.downloadError (.badStatus 404)) := rfl

/-- Claim C7, amended: through `download_or_local` with a storage folder that
misses, a 404 response raises a download error on the first attempt (it is
not converted to None), a 500 response likewise raises on the first attempt
(only connection errors consume the retry budget), and a 200 response
returns the tile built from the response content. -/
theorem download_or_local_status_behavior (cfg : Downloader) (tid : TileID)
    (st : TileStore) (status : ℕ) (ct content : String)
    (hmiss : storage_get_tile st tid = none)
    (hp : cfg.params = []) (hf : cfg.fields = [])
    (hr : 0 < cfg.retries) :
    (status = 404 →
      (download_or_local (slippy_download_tile cfg (fun _ => .resp status ct content))
        tid (some st)).result = .error (.downloadError (.badStatus 404)))
    ∧ (status = 500 →
      (download_or_local (slippy_download_tile cfg (fun _ => .resp status ct content))
        tid (some st)).result = .error (.downloadError (.badStatus 500)))
    ∧ (status = 200 →
      ∃ t : Tile, (download_or_local (slippy_download_tile cfg (fun _ => .resp status ct content))
        tid (some st)).result = .ok (some t) ∧ t.img_data = content ∧ t.tid = tid) := by
  obtain ⟨r', hr'⟩ : ∃ r', cfg.retries = r' + 1 := ⟨cfg.retries - 1, by omega⟩
  refine ⟨?_, ?_, ?_⟩
  · intro h
    subst h
    simp [download_or_local, hmiss, slippy_download_tile, download, hp, hf, hr', dlGo,
      extra_override, dictUpdate, dictUpsert, sGet, pyStrIn_empty_needle]
  · intro h
    subst h
    simp [download_or_local, hmiss, slippy_download_tile, download, hp, hf, hr', dlGo,
      extra_override, dictUpdate, dictUpsert, sGet, pyStrIn_empty_needle]
  · intro h
    subst h
    refine ⟨⟨tid, content, "", 256, .boolean (pyStrIn "png" cfg.url)⟩, ?_, rfl, rfl⟩
    simp [download_or_local, hmiss, slippy_download_tile, download, hp, hf, hr', dlGo,
      extra_override, dictUpdate, dictUpsert, sGet, pyStrIn_empty_needle, returnRes]

/-- Witness for the amended C7 with the default downloader at tile (0,0,0):
404 and 500 raise, 200 returns the content. -/
theorem download_or_local_status_behavior_witness :
    (download_or_local (slippy_download_tile {} (fun _ => .resp 500 "text/html" "boom"))
      ⟨0, 0, 0, "xyz"⟩ (some ([] : List (String × Tile)))).result
      = .error (.downloadError (.badStatus 500))
    ∧ ∃ t : Tile, (download_or_local (slippy_download_tile {} (fun _ => .resp 200 "image/png" "imgbytes"))
      ⟨0, 0, 0, "xyz"⟩ (some ([] : List (String × Tile)))).result = .ok (some t)
      ∧ t.img_data = "imgbytes" ∧ t.tid = ⟨0, 0, 0, "xyz"⟩ := by
  constructor
  · exact (download_or_local_status_behavior {} ⟨0, 0, 0, "xyz"⟩ [] 500 "text/html" "boom"
      rfl rfl rfl (by norm_num)).2.1 rfl
  · exact (download_or_local_status_behavior {} ⟨0, 0, 0, "xyz"⟩ [] 200 "image/png" "imgbytes"
      rfl rfl rfl (by norm_num)).2.2 rfl

lemma dlGo_sleeps_all_one (pf : String) (acceptable : List ℕ)
    (events : ℕ → HttpEvent) (rem : ℕ) :
    ∀ idx : ℕ, ((dlGo pf acceptable events idx rem 1).2).all (fun q => q == 1) = true := by
  induction rem with
  | zero => intro idx; simp [dlGo]
  | succ r ih =>
    intro idx
    rcases hev : events idx with _ | ⟨status, ct, content⟩
    · simp [dlGo, hev, one_pow, ih (idx + 1)]
    · simp only [dlGo, hev]
      split
      · simp
      · split
        · simp
        · split <;> simp

/-- Claim C9: `Downloader.download` updates the backoff by squaring it after
each connection-level failure, so with `backoff_time = 1` (the default)
every sleep before a retry lasts exactly 1, however many consecutive
connection failures occur within the retry budget. -/
theorem download_backoff_one_stays_one (d : Downloader) (url : String)
    (acceptable : List ℕ)
    (params_override fields_override headers_override : List (String × String))
    (params_extra fields_extra headers_extra : List (String × String))
    (events : ℕ → HttpEvent) (h : d.backoff_time = 1) :
    ((download d url acceptable params_override fields_override headers_override
      params_extra fields_extra headers_extra events).2).all (fun q => q == 1) = true := by
  unfold download
  rw [h]
  exact dlGo_sleeps_all_one _ _ _ _ _

/-- Witness for C9: the default downloader (backoff_time = 1) against a
stream of pure connection errors. -/
theorem download_backoff_one_stays_one_witness :
    ((download {} "" [] [] [] [] [] [] [] (fun _ => .connError)).2).all
      (fun q => q == 1) = true :=
  download_backoff_one_stays_one {} "" [] [] [] [] [] [] [] (fun _ => .connError) rfl

end Mbtiles

